import Mathlib

/-!
Verification of `stream_alert_cli/runner.py` (StreamAlert CLI orchestrator).

The Python source is shallowly embedded: the process-wide `CONFIG` object is a
`Config` structure (for `tf_runner`) or an explicit map (for `rollback`);
external-process invocations (`CLIHelpers.run_command`) are represented by an
oracle environment giving each invocation's boolean outcome, and the sequence
of argument vectors actually issued is collected in a trace; the interactive
`continue_prompt` loop reads from an explicit list of operator input lines,
`none` standing for a loop that never terminates.
-/

namespace StreamAlertCli

/-- The slice of the process-wide `CONFIG` object (`CLIConfig`) that
`tf_runner`, `refresh_tf_state` and target resolution read.  `clusters` is
`CONFIG['clusters'].keys()` in its iteration order. -/
structure Config where
  filename : String
  clusters : List String
  region : String
  prefixVal : String
  tfstateS3Key : String
  kmsKeyAlias : String
deriving DecidableEq

/-- Argument vector built by `refresh_tf_state` (runner.py lines 164-184). -/
def refresh_tf_state_cmd (cfg : Config) : List String :=
  ["terraform",
   "remote",
   "config",
   "-backend=s3",
   "-backend-config=bucket=" ++ cfg.prefixVal ++ ".streamalert.terraform.state",
   "-backend-config=key=" ++ cfg.tfstateS3Key,
   "-backend-config=region=" ++ cfg.region,
   "-backend-config=kms_key_id=alias/" ++ cfg.kmsKeyAlias,
   "-backend-config=encrypt=true"]

/-- `continue_prompt` (runner.py lines 153-161): loop until the operator types
exactly `yes` or `no`, then return `response == 'yes'`.  The argument is the
sequence of lines the operator types; `none` models the loop never returning
(the finite input list is exhausted without a valid literal). -/
def continue_prompt : List String → Option Bool
  | [] => none
  | response :: rest =>
      if response = "yes" ∨ response = "no" then some (response = "yes")
      else continue_prompt rest

/-- `tf_targets` (runner.py line 210): one `-target=` flag per target. -/
def tf_targets (targets : List String) : List String :=
  targets.map (fun x => "-target=" ++ x)

/-- `tf_command` as first assembled for the plan step (runner.py lines
209-213): `['terraform', 'plan'] + tf_opts + tf_targets`, with `-destroy`
appended when `action == 'destroy'`. -/
def tf_command (cfg : Config) (targets : List String) (action : Option String) :
    List String :=
  (["terraform", "plan"] ++ ["-var-file=../" ++ cfg.filename] ++ tf_targets targets)
    ++ (if action = some "destroy" then ["-destroy"] else [])

/-- Modelled from the spec: `CLIHelpers.run_command` (in
`stream_alert_cli/helpers.py`, not part of the sampled source).  Per the
CommandRunner contract (§4.1) it executes one external process synchronously
and returns `true` on zero exit and `false` on nonzero exit, with no retry and
no process exit.  Each field is the outcome the environment gives to one of
`tf_runner`'s invocations: the `terraform get` step, the `terraform plan`
step, and the final `terraform apply`/`destroy` step; `inputs` is the
operator's line input to `continue_prompt`. -/
structure TfEnv where
  getOk : Bool
  planOk : Bool
  inputs : List String
  applyOk : Bool
deriving DecidableEq

/-- Observable outcome of one `tf_runner` call: the argument vectors issued in
order, whether `continue_prompt` was ever invoked, and the returned value
(`none` when `continue_prompt` never returns). -/
structure TfRun where
  trace : List (List String)
  promptInvoked : Bool
  result : Option Bool
deriving DecidableEq

/-- The command run after a confirmed plan (runner.py lines 226-236): the
mutate verb replaces index 1 of `tf_command` (`tf_action_index = 1`); in the
destroy case the `-destroy` flag is removed again; a truthy non-destroy
`action` is installed verbatim; otherwise the verb is `apply`. -/
def mutate_command (cfg : Config) (targets : List String) (action : Option String) :
    List String :=
  if action = some "destroy" then
    ((tf_command cfg targets action).set 1 "destroy").erase "-destroy"
  else
    match action with
    | some a =>
        if a = "" then (tf_command cfg targets action).set 1 "apply"
        else (tf_command cfg targets action).set 1 a
    | none => (tf_command cfg targets action).set 1 "apply"

/-- `tf_runner` (runner.py lines 187-239).  Faithful points: the result of
`run_command(['terraform', 'get'])` is discarded (line 219); the plan result
is short-circuit ANDed with `continue_prompt()` (line 222); after a confirmed
plan the mutate verb replaces index 1 of `tf_command` (`tf_action_index = 1`),
with `-destroy` removed in the destroy case (lines 226-236); the result of the
final `run_command(tf_command)` is discarded and `True` is returned
unconditionally (lines 238-239).  `tf_runner` never mutates `CONFIG`. -/
def tf_runner (cfg : Config) (targets : List String) (action : Option String)
    (refresh_state : Bool) (env : TfEnv) : TfRun :=
  let planCmd := tf_command cfg targets action
  let pre := (if refresh_state then [refresh_tf_state_cmd cfg] else [])
    ++ [["terraform", "get"], planCmd]
  if env.planOk then
    match continue_prompt env.inputs with
    | none => { trace := pre, promptInvoked := true, result := none }
    | some false => { trace := pre, promptInvoked := true, result := some false }
    | some true =>
        { trace := pre ++ [mutate_command cfg targets action],
          promptInvoked := true, result := some true }
  else
    { trace := pre, promptInvoked := false, result := some false }

/-- A stored version pointer: either the string `'$LATEST'` or a published
integer version (the config may store it as an int or a numeric string;
`rollback` normalises with `int(...)`, so the numeric case is one constructor). -/
inductive VersionPointer where
  | latest : VersionPointer
  | num : Int → VersionPointer
deriving DecidableEq

/-- The key `rollback` actually indexes `CONFIG` with (runner.py lines 273 and
278): the literal string `'{}_versions'` — the `.format` call is missing, so
the braces are part of the key. -/
def rollbackKey : String := "\x7b\x7d_versions"

/-- Point update of the version tables (`CONFIG[key][cluster] = value`). -/
def updateCfg (cfg : String → String → VersionPointer) (k c : String)
    (v : VersionPointer) : String → String → VersionPointer :=
  fun k' c' => if k' = k ∧ c' = c then v else cfg k' c'

/-- Body of `rollback`'s inner loop (runner.py lines 273-278), for one cluster
and one iteration of the `lambda_function` loop: read
`CONFIG['{}_versions'][cluster]` (the literal key `rollbackKey`), skip
`'$LATEST'`, and when the numeric version exceeds 1 write back the
decrement. -/
def rollback_once (cfg : String → String → VersionPointer) (cluster : String) :
    String → String → VersionPointer :=
  match cfg rollbackKey cluster with
  | .latest => cfg
  | .num current_vers =>
      if current_vers > 1 then
        updateCfg cfg rollbackKey cluster (.num (current_vers - 1))
      else cfg

/-- `rollback` (runner.py lines 263-278).  For each cluster, for each of the
two function kinds, the inner body runs once; the loop variable
(`lambda_function`) is never used in the key, which stays the literal
`'{}_versions'`.  The version tables are modelled as a map from key and
cluster to stored pointer. -/
def rollback (clusters : List String)
    (cfg0 : String → String → VersionPointer) : String → String → VersionPointer :=
  clusters.foldl (fun cfg cluster =>
    ["rule_processor", "alert_processor"].foldl
      (fun cfg _lambda_function => rollback_once cfg cluster) cfg) cfg0

/-- The effect of one inner-loop body on the pointer it touches: `'$LATEST'`
and versions at most 1 are left alone, larger versions are decremented. -/
def rollback_step (v : VersionPointer) : VersionPointer :=
  match v with
  | .latest => .latest
  | .num n => if n > 1 then .num (n - 1) else .num n

/-- A well-formed stored pointer: the sentinel or a version at least 1. -/
def PtrOK (v : VersionPointer) : Prop :=
  v = .latest ∨ ∃ n : Int, v = .num n ∧ 1 ≤ n

/-- Targets built by `terraform build --target <m>` (runner.py lines 100-101):
`'module.{}_{}'.format(target, cluster)` for each configured cluster. -/
def build_targets (m : String) (clusters : List String) : List String :=
  clusters.map (fun cluster => "module." ++ m ++ "_" ++ cluster)

/-- Targets used by `deploy` and by `lambda rollback` (runner.py lines 70-71
and 315-316): `'module.stream_alert_{}'.format(x)` per cluster. -/
def stream_alert_targets (clusters : List String) : List String :=
  clusters.map (fun x => "module.stream_alert_" ++ x)

/-- Observable outcome of one `deploy` call: which processor packages were
built and uploaded (in order), and the targets of the `tf_runner` call it
always ends with. -/
structure DeployRun where
  builds : List String
  tfTargets : List String
  tfInvoked : Bool
deriving DecidableEq

/-- `deploy` (runner.py lines 302-342).  The `if/elif` chain over
`options.processor` recognises exactly `'rule'`, `'alert'` and `'all'`; there
is no `else` branch, so any other selector builds nothing, and
`tf_runner(targets=targets)` runs unconditionally afterwards. -/
def deploy (processor : String) (clusters : List String) : DeployRun :=
  let targets := stream_alert_targets clusters
  let builds :=
    if processor = "rule" then ["rule_processor"]
    else if processor = "alert" then ["alert_processor"]
    else if processor = "all" then ["rule_processor", "alert_processor"]
    else []
  { builds := builds, tfTargets := targets, tfInvoked := true }

/-- The per-cluster bucket lookup in `generate_tf_files` (runner.py lines
292-295): `all_buckets.get(cluster)` when `s3_event_buckets` is configured,
`None` otherwise. -/
def bucketsFor (allBuckets : Option (String → Option (List String)))
    (cluster : String) : Option (List String) :=
  match allBuckets with
  | some all => all cluster
  | none => none

/-- `generate_tf_files` (runner.py lines 281-299).  `render` stands for the
opaque Jinja template (`TemplateRenderer` collaborator); `allBuckets` models
`CONFIG.get('s3_event_buckets')` (`none` when absent) with its per-cluster
lookup.  The result is the list of files written, as (path, contents) pairs in
write order, paired with `some message` when `InvalidClusterName` was raised
(files written before the raise remain written). -/
def generate_tf_files (render : String → Option (List String) → String)
    (allBuckets : Option (String → Option (List String))) :
    List String → List (String × String) × Option String
  | [] => ([], none)
  | cluster :: rest =>
      if cluster = "main" then
        ([], some "Rename cluster main to something else!")
      else
        let contents := render cluster (bucketsFor allBuckets cluster)
        let r := generate_tf_files render allBuckets rest
        (("terraform/" ++ cluster ++ ".tf", contents) :: r.1, r.2)

/-- A concrete configuration used to instantiate the theorems below. -/
def exampleConfig : Config :=
  { filename := "variables.json"
    clusters := ["prod", "staging"]
    region := "us-east-1"
    prefixVal := "acme"
    tfstateS3Key := "stream_alert_state/terraform.tfstate"
    kmsKeyAlias := "stream_alert_secrets" }

/-- Concrete version tables: the literal-key pointer of cluster `prod` is 5,
of `beta` is 1, of `gamma` is `'$LATEST'`; the per-function keys for `prod`
are both 5. -/
def exampleVersions : String → String → VersionPointer := fun k c =>
  if k = rollbackKey ∧ c = "prod" then .num 5
  else if k = rollbackKey ∧ c = "beta" then .num 1
  else if k = "rule_processor_versions" ∧ c = "prod" then .num 5
  else if k = "alert_processor_versions" ∧ c = "prod" then .num 5
  else .latest

section PromptLemmas

lemma continue_prompt_skip (pre l : List String)
    (h : ∀ x ∈ pre, x ≠ "yes" ∧ x ≠ "no") :
    continue_prompt (pre ++ l) = continue_prompt l := by
  induction pre with
  | nil => rfl
  | cons x xs ih =>
      have hx := h x (by simp)
      rw [List.cons_append]
      simp only [continue_prompt]
      rw [if_neg (by tauto)]
      exact ih (fun y hy => h y (by simp [hy]))

end PromptLemmas

/-- C6: `continue_prompt` never returns while fed inputs other than the exact
literals `yes` and `no`; when the first valid literal in the input sequence is
`yes` it returns `true`, and when it is `no` it returns `false`. -/
theorem continue_prompt_first_valid (pre rest other : List String)
    (hpre : ∀ x ∈ pre, x ≠ "yes" ∧ x ≠ "no")
    (hother : ∀ x ∈ other, x ≠ "yes" ∧ x ≠ "no") :
    continue_prompt (pre ++ "yes" :: rest) = some true ∧
    continue_prompt (pre ++ "no" :: rest) = some false ∧
    continue_prompt other = none := by
  refine ⟨?_, ?_, ?_⟩
  · rw [continue_prompt_skip pre _ hpre]; rfl
  · rw [continue_prompt_skip pre _ hpre]; rfl
  · have h := continue_prompt_skip other [] hother
    rw [List.append_nil] at h
    rw [h]; rfl

/-- Instantiation of `continue_prompt_first_valid`: case-variant and empty
responses (`""`, `"Yes"`, `"NO"`) are all re-prompted. -/
theorem continue_prompt_first_valid_witness :
    continue_prompt (["", "Yes", "NO"] ++ "yes" :: ["no"]) = some true ∧
    continue_prompt (["", "Yes", "NO"] ++ "no" :: ["no"]) = some false ∧
    continue_prompt ["", "y", "n"] = none :=
  continue_prompt_first_valid ["", "Yes", "NO"] ["no"] ["", "y", "n"]
    (by decide) (by decide)

/-- C1: whenever `continue_prompt` answers `false`, `tf_runner` returns
`False` and its trace is exactly the state-refresh (when requested), the
module-resolution call and the plan call — no command with the mutate verb
`apply` or `destroy` in the action slot (index 1) is ever issued.  (`tf_runner`
never writes to `CONFIG`, so the configuration is untouched as well: the
embedding takes `cfg` immutably.) -/
theorem tf_runner_rejection_no_mutation (cfg : Config) (targets : List String)
    (action : Option String) (refresh_state : Bool) (env : TfEnv)
    (h : continue_prompt env.inputs = some false) :
    (tf_runner cfg targets action refresh_state env).result = some false ∧
    (tf_runner cfg targets action refresh_state env).trace =
      (if refresh_state then [refresh_tf_state_cmd cfg] else [])
        ++ [["terraform", "get"], tf_command cfg targets action] ∧
    ∀ cmd ∈ (tf_runner cfg targets action refresh_state env).trace,
      cmd.get? 1 ≠ some "apply" ∧ cmd.get? 1 ≠ some "destroy" := by
  have htrace : (tf_runner cfg targets action refresh_state env).trace =
      (if refresh_state then [refresh_tf_state_cmd cfg] else [])
        ++ [["terraform", "get"], tf_command cfg targets action] := by
    cases hp : env.planOk <;> simp [tf_runner, hp, h]
  have hres : (tf_runner cfg targets action refresh_state env).result = some false := by
    cases hp : env.planOk <;> simp [tf_runner, hp, h]
  refine ⟨hres, htrace, ?_⟩
  rw [htrace]
  intro cmd hcmd
  rcases List.mem_append.1 hcmd with hl | hr
  · have : cmd = refresh_tf_state_cmd cfg := by
      cases refresh_state <;> simp_all
    subst this
    exact ⟨by simp [refresh_tf_state_cmd], by simp [refresh_tf_state_cmd]⟩
  · simp only [List.mem_cons, List.not_mem_nil, or_false] at hr
    rcases hr with rfl | rfl
    · exact ⟨by simp, by simp⟩
    · constructor <;>
        · simp only [tf_command]
          cases action <;> simp [List.get?]

/-- Instantiation of `tf_runner_rejection_no_mutation` at a run whose operator
answers `no`. -/
theorem tf_runner_rejection_no_mutation_witness :
    (tf_runner exampleConfig [] none true
      { getOk := true, planOk := true, inputs := ["no"], applyOk := true }).result
        = some false :=
  (tf_runner_rejection_no_mutation exampleConfig [] none true
    { getOk := true, planOk := true, inputs := ["no"], applyOk := true }
    (by decide)).1

/-- C2: a failed plan short-circuits — `continue_prompt` is never invoked and
`tf_runner` returns `False`; a successful plan always reaches the prompt. -/
theorem tf_runner_plan_gates_prompt (cfg : Config) (targets : List String)
    (action : Option String) (refresh_state : Bool) (env : TfEnv) :
    (env.planOk = false →
      (tf_runner cfg targets action refresh_state env).promptInvoked = false ∧
      (tf_runner cfg targets action refresh_state env).result = some false) ∧
    (env.planOk = true →
      (tf_runner cfg targets action refresh_state env).promptInvoked = true) := by
  cases hp : env.planOk
  · simp [tf_runner, hp]
  · refine ⟨by simp [hp], fun _ => ?_⟩
    cases hc : continue_prompt env.inputs with
    | none => simp [tf_runner, hp, hc]
    | some b => cases b <;> simp [tf_runner, hp, hc]

/-- Instantiation of `tf_runner_plan_gates_prompt` at a run whose plan step
fails. -/
theorem tf_runner_plan_gates_prompt_witness :
    (tf_runner exampleConfig [] none true
      { getOk := true, planOk := false, inputs := ["yes"], applyOk := true }).promptInvoked
        = false ∧
    (tf_runner exampleConfig [] none true
      { getOk := true, planOk := false, inputs := ["yes"], applyOk := true }).result
        = some false :=
  (tf_runner_plan_gates_prompt exampleConfig [] none true
    { getOk := true, planOk := false, inputs := ["yes"], applyOk := true }).1 rfl

/-- C3 (code bug): with a successful plan and a confirming operator,
`tf_runner` returns `True` even though the final `apply` invocation failed
(`applyOk := false`): line 238 discards the result of the last `run_command`
and line 239 returns `True` unconditionally, contradicting the docstring
"Returns: Boolean result of if the terraform command was successful or
not". -/
theorem tf_runner_true_despite_apply_failure :
    (tf_runner exampleConfig [] none false
      { getOk := true, planOk := true, inputs := ["yes"], applyOk := false }).result
        = some true ∧
    (tf_runner exampleConfig [] none false
      { getOk := true, planOk := true, inputs := ["yes"], applyOk := false }).trace
        = [["terraform", "get"],
           ["terraform", "plan", "-var-file=../variables.json"],
           ["terraform", "apply", "-var-file=../variables.json"]] := by
  decide

section GetStepLemmas

lemma ne_of_length_ne {l l' : List String} (h : l.length ≠ l'.length) : l ≠ l' :=
  fun e => h (by rw [e])

lemma tf_command_length (cfg : Config) (targets : List String) (action : Option String) :
    (tf_command cfg targets action).length
      = 3 + targets.length + (if action = some "destroy" then 1 else 0) := by
  by_cases hd : action = some "destroy" <;>
    simp [tf_command, tf_targets, hd] <;> omega

lemma refresh_cmd_ne_get (cfg : Config) :
    ¬ (refresh_tf_state_cmd cfg = ["terraform", "get"]) := by
  simp [refresh_tf_state_cmd]

lemma get_ne_refresh_cmd (cfg : Config) :
    ¬ (["terraform", "get"] = refresh_tf_state_cmd cfg) := by
  simp [refresh_tf_state_cmd]

lemma tf_command_ne_get (cfg : Config) (targets : List String) (action : Option String) :
    ¬ (tf_command cfg targets action = ["terraform", "get"]) := by
  apply ne_of_length_ne
  rw [tf_command_length]
  by_cases hd : action = some "destroy" <;> simp [hd] <;> omega

lemma get_ne_tf_command (cfg : Config) (targets : List String) (action : Option String) :
    ¬ (["terraform", "get"] = tf_command cfg targets action) :=
  fun e => tf_command_ne_get cfg targets action e.symm

lemma mutate_command_ne_get (cfg : Config) (targets : List String)
    (action : Option String) :
    ¬ (mutate_command cfg targets action = ["terraform", "get"]) := by
  apply ne_of_length_ne
  have hlen := tf_command_length cfg targets action
  simp only [List.length_cons, List.length_nil]
  unfold mutate_command
  by_cases hd : action = some "destroy"
  · rw [if_pos hd]
    rw [if_pos hd] at hlen
    by_cases hm : "-destroy" ∈ (tf_command cfg targets action).set 1 "destroy"
    · have h1 := List.length_erase_add_one hm
      rw [List.length_set] at h1
      omega
    · rw [List.erase_of_not_mem hm, List.length_set]
      omega
  · rw [if_neg hd]
    rw [if_neg hd] at hlen
    cases action with
    | none =>
        rw [List.length_set]
        omega
    | some a =>
        dsimp only
        by_cases ha : a = ""
        · subst ha
          rw [if_pos rfl, List.length_set]
          omega
        · rw [if_neg ha, List.length_set]
          omega

lemma get_ne_mutate_command (cfg : Config) (targets : List String)
    (action : Option String) :
    ¬ (["terraform", "get"] = mutate_command cfg targets action) :=
  fun e => mutate_command_ne_get cfg targets action e.symm

end GetStepLemmas

/-- C8 (amended): the boolean result of the module-resolution step
(`terraform get`, runner.py line 219) is discarded — `tf_runner`'s behaviour
is identical whether it succeeds or fails, the plan command is issued in every
run (the run always proceeds to the planning step), and `terraform get` itself
is issued exactly once (never retried). -/
theorem tf_runner_get_result_ignored (cfg : Config) (targets : List String)
    (action : Option String) (refresh_state : Bool) (env : TfEnv) :
    tf_command cfg targets action ∈ (tf_runner cfg targets action refresh_state env).trace ∧
    tf_runner cfg targets action refresh_state env
      = tf_runner cfg targets action refresh_state { env with getOk := !env.getOk } ∧
    (tf_runner cfg targets action refresh_state env).trace.count ["terraform", "get"] = 1 := by
  have hcount : ∀ b : Bool,
      (((if b then [refresh_tf_state_cmd cfg] else [])
        ++ [["terraform", "get"], tf_command cfg targets action]).count
          ["terraform", "get"]) = 1 := by
    intro b
    cases b <;>
      simp [List.count_append, List.count_cons, List.count_nil, beq_iff_eq,
        get_ne_refresh_cmd cfg, get_ne_tf_command cfg targets action]
  refine ⟨?_, rfl, ?_⟩
  · cases hp : env.planOk
    · simp [tf_runner, hp]
    · cases hc : continue_prompt env.inputs with
      | none => simp [tf_runner, hp, hc]
      | some b => cases b <;> simp [tf_runner, hp, hc]
  · cases hp : env.planOk
    · simpa [tf_runner, hp] using hcount refresh_state
    · cases hc : continue_prompt env.inputs with
      | none => simpa [tf_runner, hp, hc] using hcount refresh_state
      | some b =>
          cases b
          · simpa [tf_runner, hp, hc] using hcount refresh_state
          · have h2 := hcount refresh_state
            simp [tf_runner, hp, hc, List.count_append, List.count_cons,
              List.count_nil, beq_iff_eq,
              get_ne_mutate_command cfg targets action] at h2 ⊢
            omega

/-- C8 (counterexample to the claim as stated): a run whose `terraform get`
invocation fails (`getOk := false`) still issues the plan command — the run
proceeds to the planning step and returns normally instead of aborting. -/
theorem tf_runner_get_failure_counterexample :
    (tf_runner exampleConfig [] none false
      { getOk := false, planOk := true, inputs := ["no"], applyOk := true }).trace
        = [["terraform", "get"], ["terraform", "plan", "-var-file=../variables.json"]] ∧
    ["terraform", "plan", "-var-file=../variables.json"]
      ∈ (tf_runner exampleConfig [] none false
          { getOk := false, planOk := true, inputs := ["no"], applyOk := true }).trace ∧
    (tf_runner exampleConfig [] none false
      { getOk := false, planOk := true, inputs := ["no"], applyOk := true }).result
        = some false := by
  decide

section TargetLemmas

lemma string_append_left_cancel (p x y : String) (h : p ++ x = p ++ y) : x = y := by
  apply String.ext
  have hd := congrArg String.data h
  rw [String.data_append, String.data_append] at hd
  exact List.append_cancel_left hd

lemma module_target_injective (m : String) :
    Function.Injective (fun cluster => "module." ++ m ++ "_" ++ cluster) := by
  intro a b h
  exact string_append_left_cancel ("module." ++ m ++ "_") a b h

lemma data_take_two_append (p x : String) (h : 2 ≤ p.data.length) :
    ((p ++ x).data).take 2 = p.data.take 2 := by
  rw [String.data_append, List.take_append_eq_append_take]
  have h0 : 2 - p.data.length = 0 := by omega
  rw [h0, List.take_zero, List.append_nil]

lemma ne_target_flag_of_take2 (s : String)
    (hs : s.data.take 2 ≠ ("-target=" : String).data.take 2) :
    ∀ x, ¬ (s = "-target=" ++ x) := by
  intro x h
  apply hs
  rw [h, data_take_two_append "-target=" x (by decide)]

end TargetLemmas

/-- C7: resolving a module scope yields exactly one target per configured
cluster (counted with multiplicity, in the source's format
`module.<m>_<cluster>`), every produced target names a configured cluster,
and the all-modules scope (empty target list) yields a plan command carrying
no `-target` flags at all. -/
theorem target_resolution_per_cluster (cfg : Config) (action : Option String)
    (m c : String) :
    (build_targets m cfg.clusters).length = cfg.clusters.length ∧
    (build_targets m cfg.clusters).count ("module." ++ m ++ "_" ++ c)
      = cfg.clusters.count c ∧
    (∀ t ∈ build_targets m cfg.clusters, ∃ cl ∈ cfg.clusters,
        t = "module." ++ m ++ "_" ++ cl) ∧
    tf_command cfg [] action
      = ["terraform", "plan", "-var-file=../" ++ cfg.filename]
          ++ (if action = some "destroy" then ["-destroy"] else []) ∧
    (∀ s ∈ tf_command cfg [] action, ∀ x, ¬ (s = "-target=" ++ x)) := by
  have hcmd : tf_command cfg [] action
      = ["terraform", "plan", "-var-file=../" ++ cfg.filename]
          ++ (if action = some "destroy" then ["-destroy"] else []) := by
    simp [tf_command, tf_targets]
  refine ⟨by simp [build_targets], ?_, ?_, hcmd, ?_⟩
  · exact List.count_map_of_injective _ _ (module_target_injective m) c
  · intro t ht
    rcases List.mem_map.1 ht with ⟨cl, hcl, rfl⟩
    exact ⟨cl, hcl, rfl⟩
  · intro s hs
    rw [hcmd] at hs
    rcases List.mem_append.1 hs with hl | hr
    · simp only [List.mem_cons, List.not_mem_nil, or_false] at hl
      rcases hl with rfl | rfl | rfl
      · exact ne_target_flag_of_take2 _ (by decide)
      · exact ne_target_flag_of_take2 _ (by decide)
      · apply ne_target_flag_of_take2
        rw [data_take_two_append "-var-file=../" cfg.filename (by decide)]
        decide
    · have : s = "-destroy" := by
        by_cases hd : action = some "destroy" <;> simp [hd] at hr
        · exact hr
      subst this
      exact ne_target_flag_of_take2 _ (by decide)

section RollbackLemmas

lemma rollback_once_apply (cfg : String → String → VersionPointer)
    (cluster k c : String) :
    rollback_once cfg cluster k c
      = if k = rollbackKey ∧ c = cluster then rollback_step (cfg rollbackKey cluster)
        else cfg k c := by
  by_cases hk : k = rollbackKey ∧ c = cluster
  · rw [if_pos hk, hk.1, hk.2]
    cases h : cfg rollbackKey cluster with
    | latest => simp [rollback_once, rollback_step, h]
    | num n =>
        by_cases hn : n > 1
        · simp [rollback_once, rollback_step, h, hn, updateCfg]
        · simp [rollback_once, rollback_step, h, hn]
  · rw [if_neg hk]
    cases h : cfg rollbackKey cluster with
    | latest => simp [rollback_once, h]
    | num n =>
        by_cases hn : n > 1
        · simp [rollback_once, h, hn, updateCfg, hk]
        · simp [rollback_once, h, hn]

lemma rollback_twice_apply (cfg : String → String → VersionPointer)
    (a k c : String) :
    rollback_once (rollback_once cfg a) a k c
      = if k = rollbackKey ∧ c = a then
          rollback_step (rollback_step (cfg rollbackKey a))
        else cfg k c := by
  rw [rollback_once_apply]
  by_cases hk : k = rollbackKey ∧ c = a
  · rw [if_pos hk, if_pos hk, rollback_once_apply, if_pos ⟨rfl, rfl⟩]
  · rw [if_neg hk, if_neg hk, rollback_once_apply, if_neg hk]

lemma rollback_apply (clusters : List String)
    (cfg : String → String → VersionPointer) (k c : String) :
    rollback clusters cfg k c
      = rollback_step^[2 * (if k = rollbackKey then clusters.count c else 0)]
          (cfg k c) := by
  induction clusters generalizing cfg with
  | nil => simp [rollback]
  | cons a rest ih =>
      have hstep : rollback (a :: rest) cfg
          = rollback rest (rollback_once (rollback_once cfg a) a) := rfl
      have h22 : ∀ v, rollback_step^[2] v = rollback_step (rollback_step v) :=
        fun _ => rfl
      rw [hstep, ih]
      by_cases hk : k = rollbackKey
      · subst hk
        rw [if_pos rfl, if_pos rfl]
        by_cases hc : c = a
        · subst hc
          rw [rollback_twice_apply, if_pos ⟨rfl, rfl⟩, List.count_cons_self]
          have h2 : 2 * (rest.count c + 1) = 2 * rest.count c + 2 := by ring
          rw [h2, Function.iterate_add_apply, h22]
        · rw [rollback_twice_apply, if_neg (fun hh => hc hh.2),
            List.count_cons_of_ne hc]
      · rw [if_neg hk, if_neg hk, rollback_twice_apply,
          if_neg (fun hh => hk hh.1)]

lemma rollback_step_iterate_latest (n : Nat) :
    rollback_step^[n] VersionPointer.latest = VersionPointer.latest := by
  induction n with
  | zero => rfl
  | succ n ih => rw [Function.iterate_succ_apply]; exact ih

lemma PtrOK_rollback_step (v : VersionPointer) (h : PtrOK v) :
    PtrOK (rollback_step v) := by
  rcases h with rfl | ⟨n, rfl, hn⟩
  · exact Or.inl rfl
  · show PtrOK (if n > 1 then VersionPointer.num (n - 1) else VersionPointer.num n)
    by_cases h1 : n > 1
    · rw [if_pos h1]
      exact Or.inr ⟨n - 1, rfl, by omega⟩
    · rw [if_neg h1]
      exact Or.inr ⟨n, rfl, hn⟩

lemma PtrOK_rollback_step_iterate (n : Nat) (v : VersionPointer) (h : PtrOK v) :
    PtrOK (rollback_step^[n] v) := by
  induction n generalizing v with
  | zero => exact h
  | succ n ih =>
      rw [Function.iterate_succ_apply]
      exact ih _ (PtrOK_rollback_step v h)

end RollbackLemmas

/-- C5: starting from version tables whose every entry is the `'$LATEST'`
sentinel or a version at least 1, `rollback` keeps every entry a sentinel or a
version at least 1 — no decrement ever lands below 1 — and an entry holding
the sentinel is left exactly as it was (never decremented). -/
theorem rollback_pointer_invariant (clusters : List String)
    (cfg : String → String → VersionPointer)
    (h : ∀ k c, PtrOK (cfg k c)) :
    (∀ k c, PtrOK (rollback clusters cfg k c)) ∧
    (∀ k c, cfg k c = VersionPointer.latest →
        rollback clusters cfg k c = VersionPointer.latest) := by
  constructor
  · intro k c
    rw [rollback_apply]
    exact PtrOK_rollback_step_iterate _ _ (h k c)
  · intro k c hl
    rw [rollback_apply, hl]
    exact rollback_step_iterate_latest _

/-- Instantiation of `rollback_pointer_invariant`: every pointer 5 stays a
valid pointer after rollback. -/
theorem rollback_pointer_invariant_witness :
    PtrOK (rollback ["prod"] (fun _ _ => VersionPointer.num 5) rollbackKey "prod") :=
  (rollback_pointer_invariant ["prod"] (fun _ _ => VersionPointer.num 5)
    (fun _ _ => Or.inr ⟨5, rfl, by norm_num⟩)).1 rollbackKey "prod"

/-- C4 (code bug): `rollback` reads and writes the literal key
`'{}_versions'` (the `.format` of the function name is missing, runner.py
lines 273 and 278), so the two function kinds are not independent: the single
literal-key pointer of cluster `prod` is decremented twice, from 5 to 3
(instead of each function's pointer going from 5 to 4), while the real
per-function keys are never touched; a pointer of 1 and the `'$LATEST'`
sentinel are indeed left unchanged. -/
theorem rollback_literal_key_double_decrement :
    rollback ["prod", "beta", "gamma"] exampleVersions rollbackKey "prod"
      = VersionPointer.num 3 ∧
    rollback ["prod", "beta", "gamma"] exampleVersions rollbackKey "beta"
      = VersionPointer.num 1 ∧
    rollback ["prod", "beta", "gamma"] exampleVersions rollbackKey "gamma"
      = VersionPointer.latest ∧
    rollback ["prod", "beta", "gamma"] exampleVersions "rule_processor_versions" "prod"
      = VersionPointer.num 5 ∧
    rollback ["prod", "beta", "gamma"] exampleVersions "alert_processor_versions" "prod"
      = VersionPointer.num 5 := by
  decide

/-- C9 (amended): `deploy`'s `if/elif` chain recognises only `rule`, `alert`
and `all`; any other selector is silently ignored — no package is built, no
error is raised, and execution still continues into the unconditional
`tf_runner(targets=targets)` call. -/
theorem deploy_unknown_selector_silently_ignored (p : String)
    (clusters : List String) (h1 : p ≠ "rule") (h2 : p ≠ "alert")
    (h3 : p ≠ "all") :
    (deploy p clusters).builds = [] ∧
    (deploy p clusters).tfInvoked = true ∧
    (deploy p clusters).tfTargets = stream_alert_targets clusters := by
  refine ⟨?_, rfl, rfl⟩
  simp [deploy, h1, h2, h3]

/-- Instantiation of `deploy_unknown_selector_silently_ignored` at the
selector `bogus`. -/
theorem deploy_unknown_selector_silently_ignored_witness :
    (deploy "bogus" ["c1"]).builds = [] ∧
    (deploy "bogus" ["c1"]).tfInvoked = true ∧
    (deploy "bogus" ["c1"]).tfTargets = stream_alert_targets ["c1"] :=
  deploy_unknown_selector_silently_ignored "bogus" ["c1"]
    (by decide) (by decide) (by decide)

/-- C9 (counterexample to the claim as stated): the unrecognised selector
`bogus` is not surfaced as a configuration error — the build phase is skipped
silently while the run still proceeds to the terraform step. -/
theorem deploy_unknown_selector_counterexample :
    deploy "bogus" ["c1"]
      = { builds := [], tfTargets := ["module.stream_alert_c1"],
          tfInvoked := true } := by
  decide

/-- C10 (amended): when the configured cluster list reaches the reserved name
`main`, `generate_tf_files` raises `InvalidClusterName`; no file is written
for `main` nor for any cluster after it in iteration order, but the files of
the clusters iterated before it have already been written. -/
theorem generate_stops_at_reserved_name
    (render : String → Option (List String) → String)
    (allBuckets : Option (String → Option (List String)))
    (pre rest : List String) (h : "main" ∉ pre) :
    (generate_tf_files render allBuckets (pre ++ "main" :: rest)).2
        = some "Rename cluster main to something else!" ∧
    (generate_tf_files render allBuckets (pre ++ "main" :: rest)).1
        = pre.map (fun c =>
            ("terraform/" ++ c ++ ".tf", render c (bucketsFor allBuckets c))) := by
  induction pre with
  | nil => simp [generate_tf_files]
  | cons a as ih =>
      have ha : ¬ (a = "main") := fun e => h (by simp [e])
      have h' : "main" ∉ as := fun hm => h (by simp [hm])
      obtain ⟨ih1, ih2⟩ := ih h'
      rw [List.cons_append]
      constructor
      · simp only [generate_tf_files, if_neg ha]
        exact ih1
      · simp only [generate_tf_files, if_neg ha, List.map_cons]
        rw [ih2]

/-- Instantiation of `generate_stops_at_reserved_name`: one cluster `a`
before `main`. -/
theorem generate_stops_at_reserved_name_witness :
    (generate_tf_files (fun c _ => c) none (["a"] ++ "main" :: [])).2
        = some "Rename cluster main to something else!" ∧
    (generate_tf_files (fun c _ => c) none (["a"] ++ "main" :: [])).1
        = ["a"].map (fun c =>
            ("terraform/" ++ c ++ ".tf",
              (fun c _ => c) c (bucketsFor none c))) :=
  generate_stops_at_reserved_name (fun c _ => c) none ["a"] [] (by decide)

/-- C10 (counterexample to the claim as stated): a configuration whose
cluster set contains `main` after another cluster does raise
`InvalidClusterName`, but it has already written a file by then — the claim's
"writes no file" fails. -/
theorem generate_writes_before_error_counterexample :
    generate_tf_files (fun c _ => c) none ["a", "main"]
      = ([("terraform/a.tf", "a")], some "Rename cluster main to something else!") ∧
    (generate_tf_files (fun c _ => c) none ["a", "main"]).1 ≠ [] := by
  decide

end StreamAlertCli
